import Mathlib

/-!
Verification of the product-locator resolution algorithm of
`src/orders/createCrossmintOrder.ts` (functions `resolveProductLocator`,
`buildShopifyLocator`, `isShopifyStorefront`, and the static tables
`PLATFORM_HOSTNAMES`, `PRODUCT_LOCATOR_PREFIXES`, `SHOPIFY_HEADER_PREFIXES`),
together with the error surfacing of `buildCreateOrderHandler` in
`src/orders/handlers.ts`.

The embedding works over plain `String`/`List Char` data.  JavaScript string
builtins (`trim`, `toLowerCase`, `startsWith`, `endsWith`, `includes`) are
modelled as char-list operations; the WHATWG `URL` parser and
`URLSearchParams` are modelled by executable Lean functions covering the
hierarchical (`scheme://...`) URLs the resolver deals with.  The network is
an explicit transport oracle: a function from request method to either a
transport failure (which subsumes timeouts) or a response header list.
-/

namespace Purch

/-- Model of JavaScript `String.prototype.trim`: drop whitespace from both
ends of the character list. -/
def jsTrim (s : String) : String :=
  ⟨((s.data.dropWhile Char.isWhitespace).reverse.dropWhile Char.isWhitespace).reverse⟩

/-- Model of JavaScript `String.prototype.toLowerCase` (ASCII case folding). -/
def jsToLower (s : String) : String :=
  ⟨s.data.map Char.toLower⟩

/-- Model of JavaScript `String.prototype.startsWith`: the pattern's
characters are a prefix of the receiver's characters. -/
def jsStartsWith (s pat : String) : Bool :=
  pat.data.isPrefixOf s.data

/-- Model of JavaScript `String.prototype.endsWith`. -/
def jsEndsWith (s pat : String) : Bool :=
  pat.data.isSuffixOf s.data

/-- Containment of `pat` as a contiguous run inside `l`: true iff `pat` is a
prefix of some suffix of `l`. -/
def listContains (l pat : List Char) : Bool :=
  match l with
  | [] => pat.isEmpty
  | _ :: t => pat.isPrefixOf l || listContains t pat

/-- Model of JavaScript `String.prototype.includes`: the pattern occurs as a
contiguous substring of the receiver. -/
def jsIncludes (s pat : String) : Bool :=
  listContains s.data pat.data

/-- Hex value of an ASCII hex digit, if any. -/
def hexVal? (c : Char) : Option Nat :=
  if c.isDigit then some (c.toNat - 48)
  else if 'A' ≤ c && c ≤ 'F' then some (c.toNat - 55)
  else if 'a' ≤ c && c ≤ 'f' then some (c.toNat - 87)
  else none

/-- Uppercase hex digit for a value below 16 (the serializer of
`URLSearchParams` emits uppercase percent escapes). -/
def hexDigitUpper (n : Nat) : Char :=
  if n < 10 then Char.ofNat (48 + n) else Char.ofNat (55 + n)

/-- Model of `application/x-www-form-urlencoded` percent-decoding as done by
`URLSearchParams`: `+` becomes a space, `%XX` becomes the character with that
code, malformed escapes stay literal.  Multi-byte UTF-8 escape sequences are
modelled at the code-point level (the resolver's logic never inspects the
decoded bytes beyond equality tests). -/
def decodeFormChars : List Char → List Char
  | [] => []
  | '+' :: rest => ' ' :: decodeFormChars rest
  | '%' :: c1 :: c2 :: rest =>
    match hexVal? c1, hexVal? c2 with
    | some a, some b => Char.ofNat (16 * a + b) :: decodeFormChars rest
    | _, _ => '%' :: decodeFormChars (c1 :: c2 :: rest)
  | c :: rest => c :: decodeFormChars rest

/-- UTF-8 bytes of a character (standard four-case encoding). -/
def utf8BytesOf (c : Char) : List Nat :=
  let n := c.toNat
  if n < 0x80 then [n]
  else if n < 0x800 then [0xC0 + n / 64, 0x80 + n % 64]
  else if n < 0x10000 then [0xE0 + n / 4096, 0x80 + (n / 64) % 64, 0x80 + n % 64]
  else [0xF0 + n / 262144, 0x80 + (n / 4096) % 64, 0x80 + (n / 64) % 64, 0x80 + n % 64]

/-- Model of the `application/x-www-form-urlencoded` serializer used by
`URLSearchParams.toString`: alphanumerics and `*-._` are kept, a space
becomes `+`, every other character is percent-encoded byte by byte. -/
def encodeFormChar (c : Char) : List Char :=
  if c = ' ' then ['+']
  else if c.isAlphanum || c = '*' || c = '-' || c = '.' || c = '_' then [c]
  else ((utf8BytesOf c).map (fun b => ['%', hexDigitUpper (b / 16), hexDigitUpper (b % 16)])).flatten

/-- Form-encode a whole string. -/
def encodeForm (s : String) : String :=
  ⟨(s.data.map encodeFormChar).flatten⟩

/-- Split a character list on a separator character (an empty input gives one
empty segment, matching how `URLSearchParams` splits on `&`). -/
def splitOnChar (sep : Char) : List Char → List (List Char)
  | [] => [[]]
  | c :: rest =>
    if c = sep then [] :: splitOnChar sep rest
    else
      match splitOnChar sep rest with
      | [] => [[c]]
      | h :: t => (c :: h) :: t

/-- Model of the `URLSearchParams` constructor on a raw query string (no
leading `?`): split on `&`, drop empty segments, split each segment at the
first `=`, percent-decode keys and values.  Pair order is the order of
occurrence in the query string. -/
def parseQuery (q : String) : List (String × String) :=
  if q.data.isEmpty then []
  else
    (splitOnChar '&' q.data).filterMap (fun seg =>
      if seg.isEmpty then none
      else
        let k := seg.takeWhile (fun c => c ≠ '=')
        let r := seg.dropWhile (fun c => c ≠ '=')
        some (⟨decodeFormChars k⟩, ⟨decodeFormChars (r.drop 1)⟩))

/-- Model of `URLSearchParams.toString`: serialize `key=value` pairs joined
by `&`, form-encoding both components. -/
def serializeQuery (pairs : List (String × String)) : String :=
  String.intercalate "&" (pairs.map (fun kv => encodeForm kv.1 ++ "=" ++ encodeForm kv.2))

/-- Model of `URLSearchParams.get`: decoded value of the first pair whose
decoded key equals `name`, if any. -/
def getParam (q : String) (name : String) : Option String :=
  ((parseQuery q).find? (fun kv => kv.1 == name)).map (fun kv => kv.2)

/-- Model of `URLSearchParams.delete`: drop every pair whose decoded key
equals `name`, keeping the remaining pairs in their original relative
order. -/
def deleteParam (q : String) (name : String) : List (String × String) :=
  (parseQuery q).filter (fun kv => !(kv.1 == name))

/-- Model of a parsed WHATWG `URL` object, restricted to the fields the
resolver reads: `protocol` (without `:`), the userinfo pair, `hostname`
(lowercased by the parser), `port` (empty when absent or equal to the
scheme default), `pathname`, the raw query (without `?`), and the fragment
(without `#`). -/
structure URLModel where
  scheme : String
  username : String
  password : String
  host : String
  port : String
  path : String
  query : String
  fragment : String
  deriving Repr, DecidableEq

/-- Model of `url.origin` for hierarchical URLs: scheme, host and explicit
non-default port; userinfo, path, query and fragment never appear. -/
def URLModel.origin (u : URLModel) : String :=
  u.scheme ++ "://" ++ u.host ++ (if u.port.isEmpty then "" else ":" ++ u.port)

/-- Characters allowed in a URL scheme after the first letter. -/
def isSchemeChar (c : Char) : Bool :=
  c.isAlphanum || c = '+' || c = '-' || c = '.'

/-- Characters accepted in a hostname by this model (the WHATWG parser
rejects whitespace and a handful of delimiters; the splitting phase already
rules out `/?#:@`). -/
def isHostChar (c : Char) : Bool :=
  !c.isWhitespace && c ≠ '\\' && c ≠ '%' && c ≠ '[' && c ≠ ']' && c ≠ '<' && c ≠ '>' && c ≠ '^' && c ≠ '|'

/-- Default ports elided by the WHATWG parser for special schemes. -/
def defaultPortFor (scheme : String) : Option String :=
  if scheme = "http" || scheme = "ws" then some "80"
  else if scheme = "https" || scheme = "wss" then some "443"
  else if scheme = "ftp" then some "21"
  else none

/-- Port normalization of the WHATWG parser: a default port is stored as the
empty string. -/
def normalizePort (scheme port : String) : String :=
  if defaultPortFor scheme = some port then "" else port

/-- Model of `new URL(s)` for absolute hierarchical URLs, returning `none`
where the constructor would throw.  Covered: `scheme://` followed by
optional userinfo (up to the last `@`), a non-empty host, an optional
all-digit port, then path, query and fragment; scheme and host are
lowercased, an empty path reads as `/`, a default port reads as empty.
Out of scope (parse failure in the model): non-hierarchical forms such as
`mailto:x`, the special-scheme slash-tolerance of browsers, IPv6 host
brackets, and path dot-segment normalization. -/
def parseURL (s : String) : Option URLModel :=
  let cs := s.data
  let schemePart := cs.takeWhile (fun c => c ≠ ':')
  match cs.dropWhile (fun c => c ≠ ':') with
  | ':' :: '/' :: '/' :: r =>
    if !(schemePart.headD ' ').isAlpha then none
    else if !schemePart.all isSchemeChar then none
    else
      let scheme : String := ⟨schemePart.map Char.toLower⟩
      let authority := r.takeWhile (fun c => c ≠ '/' && c ≠ '?' && c ≠ '#')
      let afterAuth := r.dropWhile (fun c => c ≠ '/' && c ≠ '?' && c ≠ '#')
      let revAuth := authority.reverse
      let hostPort := (revAuth.takeWhile (fun c => c ≠ '@')).reverse
      let userinfo := ((revAuth.dropWhile (fun c => c ≠ '@')).drop 1).reverse
      let hostCs := hostPort.takeWhile (fun c => c ≠ ':')
      let portCs := (hostPort.dropWhile (fun c => c ≠ ':')).drop 1
      if hostCs.isEmpty then none
      else if !hostCs.all isHostChar then none
      else if !portCs.all Char.isDigit then none
      else
        let pathCs := afterAuth.takeWhile (fun c => c ≠ '?' && c ≠ '#')
        let afterPath := afterAuth.dropWhile (fun c => c ≠ '?' && c ≠ '#')
        let queryCs :=
          match afterPath with
          | '?' :: q => q.takeWhile (fun c => c ≠ '#')
          | _ => []
        let fragCs :=
          match afterPath.dropWhile (fun c => c ≠ '#') with
          | '#' :: f => f
          | _ => []
        some
          { scheme := scheme
            username := ⟨userinfo.takeWhile (fun c => c ≠ ':')⟩
            password := ⟨(userinfo.dropWhile (fun c => c ≠ ':')).drop 1⟩
            host := ⟨hostCs.map Char.toLower⟩
            port := normalizePort scheme ⟨portCs⟩
            path := if pathCs.isEmpty then "/" else ⟨pathCs⟩
            query := ⟨queryCs⟩
            fragment := ⟨fragCs⟩ }
  | _ => none

/-- Error type of `CrossmintOrderError` (message and HTTP status; the
optional `details` payload is never set by the resolver). -/
structure CrossmintOrderError where
  message : String
  status : Nat
  deriving Repr, DecidableEq

/-- Hostname substrings of `PLATFORM_HOSTNAMES.amazon`. -/
def PLATFORM_HOSTNAMES_amazon : List String := ["amazon."]

/-- Hostname substrings of `PLATFORM_HOSTNAMES.shopify`. -/
def PLATFORM_HOSTNAMES_shopify : List String := ["myshopify.com"]

/-- Brand domains of `PLATFORM_HOSTNAMES.browserAutomation`. -/
def PLATFORM_HOSTNAMES_browserAutomation : List String :=
  ["nike.com", "www.nike.com", "adidas.com", "www.adidas.com", "crocs.com",
   "www.crocs.com", "gymshark.com", "www.gymshark.com", "on.com", "www.on.com"]

/-- Recognized locator tags of `PRODUCT_LOCATOR_PREFIXES`. -/
def PRODUCT_LOCATOR_PREFIXES : List String := ["amazon:", "shopify:", "url:"]

/-- Header-name markers of `SHOPIFY_HEADER_PREFIXES`. -/
def SHOPIFY_HEADER_PREFIXES : List String := ["x-shopify"]

/-- Amazon fast rule: `PLATFORM_HOSTNAMES.amazon.some((domain) =>
hostname.includes(domain))`. -/
def hostMatchAmazon (hostname : String) : Bool :=
  PLATFORM_HOSTNAMES_amazon.any (fun domain => jsIncludes hostname domain)

/-- Shopify fast rule: `PLATFORM_HOSTNAMES.shopify.some((domain) =>
hostname.includes(domain))`. -/
def hostMatchShopify (hostname : String) : Bool :=
  PLATFORM_HOSTNAMES_shopify.any (fun domain => jsIncludes hostname domain)

/-- Browser-automation fast rule: exact hostname equality or a subdomain
(`hostname === domain || hostname.endsWith("." + domain)`). -/
def hostMatchBrowserAutomation (hostname : String) : Bool :=
  PLATFORM_HOSTNAMES_browserAutomation.any
    (fun domain => hostname == domain || jsEndsWith hostname ("." ++ domain))

/-- Request methods issued by the storefront probe. -/
inductive Method where
  | head
  | get
  deriving Repr, DecidableEq

/-- Response header list, as iterated by `headers.entries()`. -/
abbrev Headers := List (String × String)

/-- Outcome of one `fetch` of the probe URL: a transport failure (network
error, abort, timeout) or the final response's headers after redirects. -/
abbrev FetchOutcome := Except Unit Headers

/-- Transport oracle: what `fetch` yields for each probe method. -/
abbrev Transport := Method → FetchOutcome

/-- Header inspection of `isShopifyStorefront`: detected when some header
name, lowercased, starts with a vendor marker, or some header value,
lowercased, contains `shopify`. -/
def inspectHeaders (hs : Headers) : Bool :=
  hs.any (fun kv =>
    SHOPIFY_HEADER_PREFIXES.any (fun p => jsStartsWith (jsToLower kv.1) p)
      || jsIncludes (jsToLower kv.2) "shopify")

/-- Model of the probe's `tryFetch`: inspect the response headers on
success, swallow any transport failure as "not detected". -/
def tryFetch (t : Transport) (method : Method) : Bool :=
  match t method with
  | .ok hs => inspectHeaders hs
  | .error _ => false

/-- Model of `isShopifyStorefront`: fast hostname check, then a `HEAD`
probe, then a `GET` probe only when `HEAD` was inconclusive.  Total in the
transport oracle: every transport outcome yields a boolean. -/
def isShopifyStorefront (t : Transport) (url : URLModel) : Bool :=
  let hostname := jsToLower url.host
  if hostMatchShopify hostname then true
  else if tryFetch t Method.head then true
  else tryFetch t Method.get

/-- Model of `buildShopifyLocator`: require the `variant` query parameter
(the JavaScript guard `if (!variantId)` also fires on the empty string,
which is falsy), delete every `variant` pair from the parsed query, and
rebuild the canonical URL from origin, pathname and the re-serialized
query. -/
def buildShopifyLocator (url : URLModel) : Except CrossmintOrderError String :=
  match getParam url.query "variant" with
  | none => .error ⟨"Shopify product URL must include variant parameter", 400⟩
  | some variantId =>
    if variantId.isEmpty then
      .error ⟨"Shopify product URL must include variant parameter", 400⟩
    else
      let query := serializeQuery (deleteParam url.query "variant")
      let normalizedUrl := url.origin ++ url.path ++ (if query.isEmpty then "" else "?" ++ query)
      .ok ("shopify:" ++ (normalizedUrl ++ ":" ++ variantId))

/-- Locator tag lookup of the passthrough step:
`PRODUCT_LOCATOR_PREFIXES.find((prefix) =>
trimmed.toLowerCase().startsWith(prefix))`. -/
def findLocatorTag (trimmed : String) : Option String :=
  PRODUCT_LOCATOR_PREFIXES.find? (fun tag => jsStartsWith (jsToLower trimmed) tag)

/-- Model of `resolveProductLocator`: trim, reject empty input, pass through
already-tagged strings, parse as an absolute URL, fast-classify by hostname
in the order Amazon, Shopify, browser automation, then fall back to the
storefront probe and finally to a generic `url:` locator. -/
def resolveProductLocator (t : Transport) (rawProductUrl : String) :
    Except CrossmintOrderError String :=
  let trimmed := jsTrim rawProductUrl
  if trimmed.isEmpty then .error ⟨"Product URL is required", 400⟩
  else
    match findLocatorTag trimmed with
    | some _ => .ok trimmed
    | none =>
      match parseURL trimmed with
      | none => .error ⟨"Product URL must be a valid URL", 400⟩
      | some parsedUrl =>
        let hostname := jsToLower parsedUrl.host
        if hostMatchAmazon hostname then .ok ("amazon:" ++ trimmed)
        else if hostMatchShopify hostname then buildShopifyLocator parsedUrl
        else if hostMatchBrowserAutomation hostname then .ok ("url:" ++ trimmed)
        else if isShopifyStorefront t parsedUrl then buildShopifyLocator parsedUrl
        else .ok ("url:" ++ trimmed)

/-- Simplified HTTP response of the order-creation handler: status code and
the `error` field of the JSON body. -/
structure HandlerErrorResponse where
  status : Nat
  errorMessage : String
  deriving Repr, DecidableEq

/-- Model of the `CrossmintOrderError` catch branch of
`buildCreateOrderHandler` (handlers.ts lines 365-379): respond with the
error's own status and surface the error's message in the body. -/
def handleCrossmintOrderError (e : CrossmintOrderError) : HandlerErrorResponse :=
  ⟨e.status, e.message⟩

/-- Network requests attempted by `isShopifyStorefront`: none on the fast
hostname match, only `HEAD` when it already detects Shopify, otherwise
`HEAD` then `GET`. -/
def probeRequests (t : Transport) (url : URLModel) : List Method :=
  let hostname := jsToLower url.host
  if hostMatchShopify hostname then []
  else if tryFetch t Method.head then [Method.head]
  else [Method.head, Method.get]

/-- Network requests attempted during one call of `resolveProductLocator`:
every branch before the probe performs none, the probe branch performs the
probe's requests. -/
def resolveRequests (t : Transport) (rawProductUrl : String) : List Method :=
  let trimmed := jsTrim rawProductUrl
  if trimmed.isEmpty then []
  else
    match findLocatorTag trimmed with
    | some _ => []
    | none =>
      match parseURL trimmed with
      | none => []
      | some parsedUrl =>
        let hostname := jsToLower parsedUrl.host
        if hostMatchAmazon hostname then []
        else if hostMatchShopify hostname then []
        else if hostMatchBrowserAutomation hostname then []
        else probeRequests t parsedUrl

/-- Shopify classification of the resolver, as performed by
`resolveProductLocator` after the passthrough and parse steps: not caught by
the Amazon rule, and either the Shopify fast rule or (not caught by the
browser-automation rule and) a positive storefront probe. -/
def classifiesShopify (t : Transport) (url : URLModel) : Bool :=
  let hostname := jsToLower url.host
  !hostMatchAmazon hostname
    && (hostMatchShopify hostname
        || (!hostMatchBrowserAutomation hostname && isShopifyStorefront t url))

/-- Probe timeout in milliseconds (`setTimeout(() => controller.abort(), 5000)`). -/
def probeTimeoutMs : Nat := 5000

/-- Timing scenario for the probe's two fetches: how long each request would
take to complete, and what it would yield on completion. -/
structure ProbeSchedule where
  headDuration : Nat
  headOutcome : FetchOutcome
  getDuration : Nat
  getOutcome : FetchOutcome

/-- Detection verdict of a completed fetch outcome. -/
def outcomeDetects : FetchOutcome → Bool
  | .ok hs => inspectHeaders hs
  | .error _ => false

/-- Timed semantics of `isShopifyStorefront` as written in the source: one
`AbortController` and one 5000 ms timer are created before the `HEAD`
request and shared with the `GET` request, so a fetch only completes if it
finishes before 5000 ms have elapsed since the probe started; an aborted or
failed fetch is swallowed as "not detected".  Result: verdict, elapsed
milliseconds, attempted requests. -/
def probeTimedShared (url : URLModel) (sch : ProbeSchedule) : Bool × Nat × List Method :=
  if hostMatchShopify (jsToLower url.host) then (true, 0, [])
  else if probeTimeoutMs ≤ sch.headDuration then
    (false, probeTimeoutMs, [Method.head, Method.get])
  else if outcomeDetects sch.headOutcome then
    (true, sch.headDuration, [Method.head])
  else if probeTimeoutMs ≤ sch.headDuration + sch.getDuration then
    (false, probeTimeoutMs, [Method.head, Method.get])
  else
    (outcomeDetects sch.getOutcome, sch.headDuration + sch.getDuration,
      [Method.head, Method.get])

/-- Modelled from the spec: the probe as described by the concurrency
section's words, with `HEAD` and `GET` "each independently timeout-bounded
at 5 seconds" — each request gets its own fresh 5000 ms budget, so the
combined duration may approach twice the per-request timeout.  This
definition follows the specification sentence, not the source, and is
compared against `probeTimedShared`. -/
def probeTimedIndependent (url : URLModel) (sch : ProbeSchedule) : Bool × Nat × List Method :=
  if hostMatchShopify (jsToLower url.host) then (true, 0, [])
  else
    let headElapsed := min sch.headDuration probeTimeoutMs
    if sch.headDuration < probeTimeoutMs && outcomeDetects sch.headOutcome then
      (true, headElapsed, [Method.head])
    else
      let getElapsed := min sch.getDuration probeTimeoutMs
      (decide (sch.getDuration < probeTimeoutMs) && outcomeDetects sch.getOutcome,
        headElapsed + getElapsed, [Method.head, Method.get])

/-- Canonical product-page URL embedded in a Shopify locator: origin,
pathname and the re-serialized query with every `variant` pair deleted. -/
def shopifyCanonicalUrl (u : URLModel) : String :=
  u.origin ++ u.path ++
    (if (serializeQuery (deleteParam u.query "variant")).isEmpty then ""
     else "?" ++ serializeQuery (deleteParam u.query "variant"))

/-- Transport on which every fetch fails (network error or timeout). -/
def tErr : Transport := fun _ => .error ()

/-- Transport on which every fetch answers with headers carrying no Shopify
indicator. -/
def tPlain : Transport := fun _ => .ok [("content-type", "text/html")]

/-- Transport on which every fetch answers with a Shopify vendor header. -/
def tShopHdr : Transport := fun _ => .ok [("x-shopify-stage", "production")]

/-- Concrete non-Shopify URL used to exercise the probe models. -/
def exampleItemUrl : URLModel :=
  ⟨"https", "", "", "example.com", "", "/item", "", ""⟩

/-- Probe timing scenario in which `HEAD` completes after 4000 ms without an
indicator and `GET` would complete 2000 ms later with a Shopify header. -/
def slowGetSchedule : ProbeSchedule :=
  ⟨4000, .ok [("content-type", "text/html")], 2000, .ok [("x-shopify-shop-id", "1")]⟩

/-- Probe timing scenario in which `HEAD` completes quickly with a Shopify
vendor header. -/
def headDetectSchedule : ProbeSchedule :=
  ⟨100, .ok [("x-shopify-stage", "production")], 50, .error ()⟩

deriving instance DecidableEq for Except

theorem data_append (a b : String) : (a ++ b).data = a.data ++ b.data := by
  cases a; cases b; rfl

theorem parseURL_isEmpty_false {s : String} {u : URLModel} (h : parseURL s = some u) :
    s.isEmpty = false := by
  cases he : s.isEmpty
  · rfl
  · rw [(String.isEmpty_iff s).mp he] at h
    exact Option.noConfusion h

theorem resolve_reduces (t : Transport) (s : String) (u : URLModel)
    (hfind : findLocatorTag (jsTrim s) = none)
    (hparse : parseURL (jsTrim s) = some u) :
    resolveProductLocator t s =
      (if hostMatchAmazon (jsToLower u.host) then .ok ("amazon:" ++ jsTrim s)
       else if hostMatchShopify (jsToLower u.host) then buildShopifyLocator u
       else if hostMatchBrowserAutomation (jsToLower u.host) then .ok ("url:" ++ jsTrim s)
       else if isShopifyStorefront t u then buildShopifyLocator u
       else .ok ("url:" ++ jsTrim s)) := by
  have hne : (jsTrim s).isEmpty = false := parseURL_isEmpty_false hparse
  simp only [resolveProductLocator, hne, hfind, hparse, Bool.false_eq_true, if_false]

theorem requests_reduce (t : Transport) (s : String) (u : URLModel)
    (hfind : findLocatorTag (jsTrim s) = none)
    (hparse : parseURL (jsTrim s) = some u) :
    resolveRequests t s =
      (if hostMatchAmazon (jsToLower u.host) then []
       else if hostMatchShopify (jsToLower u.host) then []
       else if hostMatchBrowserAutomation (jsToLower u.host) then []
       else probeRequests t u) := by
  have hne : (jsTrim s).isEmpty = false := parseURL_isEmpty_false hparse
  simp only [resolveRequests, hne, hfind, hparse, Bool.false_eq_true, if_false]

theorem buildShopifyLocator_ok (u : URLModel) (v : String)
    (hv : getParam u.query "variant" = some v) (hne : v.isEmpty = false) :
    buildShopifyLocator u = .ok ("shopify:" ++ (shopifyCanonicalUrl u ++ ":" ++ v)) := by
  simp only [buildShopifyLocator, hv, hne, Bool.false_eq_true, if_false,
    shopifyCanonicalUrl, URLModel.origin]

theorem isPrefixOf_append_self (l t : List Char) : l.isPrefixOf (l ++ t) = true := by
  induction l with
  | nil => simp [List.isPrefixOf]
  | cons a as ih => simp [List.isPrefixOf, ih]

theorem isPrefixOf_head_false {a b : Char} {p q l : List Char}
    (h : (a :: p).isPrefixOf l = true) (hne : b ≠ a) :
    (b :: q).isPrefixOf l = false := by
  cases l with
  | nil => simp [List.isPrefixOf] at h
  | cons c t =>
    have hac : (a == c) = true := by
      by_contra hx
      have hx' : (a == c) = false := by
        cases hy : (a == c)
        · rfl
        · exact absurd hy hx
      simp [List.isPrefixOf, hx'] at h
    have hbc : (b == c) = false := by
      rw [beq_eq_false_iff_ne]
      intro hbceq
      exact hne (hbceq.trans (beq_iff_eq.mp hac).symm)
    simp [List.isPrefixOf, hbc]

theorem jsStartsWith_false_of_head_ne (x a b : String)
    (ha : jsStartsWith x a = true)
    (hA : a.data ≠ [])
    (hb : b.data ≠ [])
    (hne : b.data.headD ' ' ≠ a.data.headD ' ') :
    jsStartsWith x b = false := by
  rcases hadata : a.data with _ | ⟨aa, as⟩
  · exact absurd hadata hA
  rcases hbdata : b.data with _ | ⟨bb, bs⟩
  · exact absurd hbdata hb
  rw [hadata, hbdata] at hne
  simp only [List.headD_cons] at hne
  unfold jsStartsWith at ha ⊢
  rw [hadata] at ha
  rw [hbdata]
  exact isPrefixOf_head_false ha hne

theorem jsStartsWith_lower_append (a b : String) (h : a.data.map Char.toLower = a.data) :
    jsStartsWith (jsToLower (a ++ b)) a = true := by
  have hd : (jsToLower (a ++ b)).data = a.data ++ b.data.map Char.toLower := by
    simp [jsToLower, data_append, h]
  unfold jsStartsWith
  rw [hd]
  exact isPrefixOf_append_self _ _

theorem countLocatorTags_eq_one (r : String) (tag : String)
    (hmem : tag ∈ PRODUCT_LOCATOR_PREFIXES)
    (h : jsStartsWith (jsToLower r) tag = true) :
    PRODUCT_LOCATOR_PREFIXES.countP (fun p => jsStartsWith (jsToLower r) p) = 1 := by
  have hmem' : tag = "amazon:" ∨ tag = "shopify:" ∨ tag = "url:" := by
    simpa [PRODUCT_LOCATOR_PREFIXES] using hmem
  rcases hmem' with h1 | h1 | h1 <;> subst h1
  · have hs := jsStartsWith_false_of_head_ne _ _ "shopify:" h (by decide) (by decide) (by decide)
    have hu := jsStartsWith_false_of_head_ne _ _ "url:" h (by decide) (by decide) (by decide)
    simp [PRODUCT_LOCATOR_PREFIXES, List.countP_cons, h, hs, hu]
  · have ham := jsStartsWith_false_of_head_ne _ _ "amazon:" h (by decide) (by decide) (by decide)
    have hu := jsStartsWith_false_of_head_ne _ _ "url:" h (by decide) (by decide) (by decide)
    simp [PRODUCT_LOCATOR_PREFIXES, List.countP_cons, h, ham, hu]
  · have ham := jsStartsWith_false_of_head_ne _ _ "amazon:" h (by decide) (by decide) (by decide)
    have hs := jsStartsWith_false_of_head_ne _ _ "shopify:" h (by decide) (by decide) (by decide)
    simp [PRODUCT_LOCATOR_PREFIXES, List.countP_cons, h, ham, hs]

theorem bool_ne_true {b : Bool} (h : ¬ b = true) : b = false := by
  cases b
  · rfl
  · exact absurd rfl h

theorem string_isEmpty_false_of_ne {v : String} (h : v ≠ "") : v.isEmpty = false := by
  cases he : v.isEmpty
  · rfl
  · exact absurd ((String.isEmpty_iff v).mp he) h

theorem buildShopifyLocator_ok_shape (u : URLModel) (r : String)
    (h : buildShopifyLocator u = .ok r) :
    ∃ rest, r = "shopify:" ++ rest := by
  unfold buildShopifyLocator at h
  split at h
  · exact absurd h (by simp)
  · split at h
    · exact absurd h (by simp)
    · exact ⟨_, (Except.ok.inj h).symm⟩

theorem buildShopifyLocator_error_iff (u : URLModel) :
    (∃ e, buildShopifyLocator u = .error e) ↔
      (getParam u.query "variant" = none ∨ getParam u.query "variant" = some "") := by
  cases hv : getParam u.query "variant" with
  | none =>
    constructor
    · intro _
      exact Or.inl rfl
    · intro _
      exact ⟨⟨"Shopify product URL must include variant parameter", 400⟩,
        by simp [buildShopifyLocator, hv]⟩
  | some v =>
    by_cases hve : v.isEmpty = true
    · constructor
      · intro _
        right
        rw [(String.isEmpty_iff v).mp hve]
      · intro _
        exact ⟨⟨"Shopify product URL must include variant parameter", 400⟩,
          by simp [buildShopifyLocator, hv, hve]⟩
    · have hvef : v.isEmpty = false := bool_ne_true hve
      constructor
      · rintro ⟨e, hE⟩
        rw [buildShopifyLocator_ok u v hv hvef] at hE
        exact Except.noConfusion hE
      · rintro (h1 | h2)
        · cases h1
        · have hveq := Option.some.inj h2
          rw [hveq] at hvef
          exact absurd hvef (by decide)

theorem buildShopifyLocator_error_status (u : URLModel) (e : CrossmintOrderError)
    (h : buildShopifyLocator u = .error e) : e.status = 400 := by
  simp only [buildShopifyLocator] at h
  split at h
  · exact (Except.error.inj h) ▸ rfl
  · split at h
    · exact (Except.error.inj h) ▸ rfl
    · exact Except.noConfusion h

theorem resolve_error_status (t : Transport) (s : String) (e : CrossmintOrderError)
    (h : resolveProductLocator t s = .error e) : e.status = 400 := by
  simp only [resolveProductLocator] at h
  split at h
  · exact (Except.error.inj h) ▸ rfl
  · split at h
    · exact Except.noConfusion h
    · split at h
      · exact (Except.error.inj h) ▸ rfl
      · rename_i u hparse
        split at h
        · exact Except.noConfusion h
        · split at h
          · exact buildShopifyLocator_error_status u e h
          · split at h
            · exact Except.noConfusion h
            · split at h
              · exact buildShopifyLocator_error_status u e h
              · exact Except.noConfusion h

/-- Claim C4, counterexample: a string with a trailing space that already
starts with the tag `url:` is not returned unchanged — the resolver returns
its trimmed form instead. -/
theorem tagged_input_trailing_space_changed :
    resolveProductLocator tErr "url:x " = .ok "url:x"
    ∧ resolveProductLocator tErr "url:x " ≠ .ok "url:x " := by
  decide

/-- Claim C4 (amended): for any string whose trimmed form starts,
case-insensitively, with one of the recognized locator tags `amazon:`,
`shopify:`, `url:`, the resolver returns the trimmed form; in particular a
string with no surrounding whitespace is returned unchanged. -/
theorem tagged_input_returns_trimmed (t : Transport) (s : String) (tag : String)
    (hmem : tag ∈ PRODUCT_LOCATOR_PREFIXES)
    (h : jsStartsWith (jsToLower (jsTrim s)) tag = true) :
    resolveProductLocator t s = .ok (jsTrim s) := by
  have hmem' : tag = "amazon:" ∨ tag = "shopify:" ∨ tag = "url:" := by
    simpa [PRODUCT_LOCATOR_PREFIXES] using hmem
  have hef : (jsTrim s).isEmpty = false := by
    cases he : (jsTrim s).isEmpty
    · rfl
    · exfalso
      rw [(String.isEmpty_iff _).mp he] at h
      rcases hmem' with h1 | h1 | h1 <;> subst h1 <;> exact absurd h (by decide)
  have hsome : (findLocatorTag (jsTrim s)).isSome = true := by
    unfold findLocatorTag
    rw [List.find?_isSome]
    exact ⟨tag, hmem, h⟩
  obtain ⟨tg, hfind⟩ := Option.isSome_iff_exists.mp hsome
  simp [resolveProductLocator, hef, hfind]

/-- Claim C4, witness: a mixed-case `amazon:` tag with no surrounding
whitespace passes through unchanged. -/
theorem tagged_input_returns_trimmed_witness :
    resolveProductLocator tErr "AmAzOn:abc" = .ok "AmAzOn:abc" :=
  (tagged_input_returns_trimmed tErr "AmAzOn:abc" "amazon:" (by decide) (by decide)).trans
    (by decide)

/-- Claim C6, counterexample: the resolver passes an upper-case `AMAZON:`
tag through unchanged, and the result does not begin with any of the three
recognized (lower-case) locator tags. -/
theorem uppercase_tag_passthrough_untagged :
    resolveProductLocator tErr "AMAZON:x" = .ok "AMAZON:x"
    ∧ PRODUCT_LOCATOR_PREFIXES.countP (fun p => jsStartsWith "AMAZON:x" p) = 0 := by
  decide

/-- Claim C6 (amended): every string the resolver successfully returns
begins, case-insensitively, with exactly one of the three recognized
locator tags `amazon:`, `shopify:`, `url:`. -/
theorem resolved_locator_tag_unique (t : Transport) (s : String) (r : String)
    (h : resolveProductLocator t s = .ok r) :
    PRODUCT_LOCATOR_PREFIXES.countP (fun p => jsStartsWith (jsToLower r) p) = 1 := by
  simp only [resolveProductLocator] at h
  split at h
  · exact absurd h (by simp)
  · split at h
    · rename_i tag hfind
      have htag : jsStartsWith (jsToLower (jsTrim s)) tag = true := List.find?_some hfind
      have hmem : tag ∈ PRODUCT_LOCATOR_PREFIXES := List.mem_of_find?_eq_some hfind
      have hr : jsTrim s = r := Except.ok.inj h
      exact countLocatorTags_eq_one r tag hmem (hr ▸ htag)
    · split at h
      · exact absurd h (by simp)
      · rename_i u hparse
        split at h
        · have hr : "amazon:" ++ jsTrim s = r := Except.ok.inj h
          exact countLocatorTags_eq_one r "amazon:" (by decide)
            (hr ▸ jsStartsWith_lower_append "amazon:" (jsTrim s) (by decide))
        · split at h
          · obtain ⟨rest, hrest⟩ := buildShopifyLocator_ok_shape u r h
            subst hrest
            exact countLocatorTags_eq_one _ "shopify:" (by decide)
              (jsStartsWith_lower_append "shopify:" rest (by decide))
          · split at h
            · have hr : "url:" ++ jsTrim s = r := Except.ok.inj h
              exact countLocatorTags_eq_one r "url:" (by decide)
                (hr ▸ jsStartsWith_lower_append "url:" (jsTrim s) (by decide))
            · split at h
              · obtain ⟨rest, hrest⟩ := buildShopifyLocator_ok_shape u r h
                subst hrest
                exact countLocatorTags_eq_one _ "shopify:" (by decide)
                  (jsStartsWith_lower_append "shopify:" rest (by decide))
              · have hr : "url:" ++ jsTrim s = r := Except.ok.inj h
                exact countLocatorTags_eq_one r "url:" (by decide)
                  (hr ▸ jsStartsWith_lower_append "url:" (jsTrim s) (by decide))

/-- Claim C6, witness: the locator resolved for an unknown unreachable
domain carries exactly one recognized tag. -/
theorem resolved_locator_tag_unique_witness :
    PRODUCT_LOCATOR_PREFIXES.countP
      (fun p => jsStartsWith (jsToLower "url:https://example.com/item") p) = 1 :=
  resolved_locator_tag_unique tErr "https://example.com/item" "url:https://example.com/item"
    (by decide)

/-- Claim C7: an un-tagged well-formed URL whose hostname contains an
Amazon domain substring resolves to `amazon:` followed by the trimmed
original URL verbatim, on every transport. -/
theorem amazon_url_passthrough (t : Transport) (s : String) (u : URLModel)
    (hfind : findLocatorTag (jsTrim s) = none)
    (hparse : parseURL (jsTrim s) = some u)
    (hamz : hostMatchAmazon (jsToLower u.host) = true) :
    resolveProductLocator t s = .ok ("amazon:" ++ jsTrim s) := by
  rw [resolve_reduces t s u hfind hparse]
  simp [hamz]

/-- Claim C7, witness: the spec's Amazon example resolves to exactly its
`amazon:`-tagged form. -/
theorem amazon_url_passthrough_witness :
    resolveProductLocator tErr "https://www.amazon.com/dp/B08N5WRWNW"
      = .ok "amazon:https://www.amazon.com/dp/B08N5WRWNW" :=
  (amazon_url_passthrough tErr "https://www.amazon.com/dp/B08N5WRWNW"
    ⟨"https", "", "", "www.amazon.com", "", "/dp/B08N5WRWNW", "", ""⟩
    (by decide) (by decide) (by decide)).trans (by decide)

/-- Claim C8: an un-tagged well-formed URL whose hostname equals or is a
subdomain of a browser-automation brand domain, and which matches neither
the Amazon nor the Shopify fast rule, resolves to `url:` followed by the
trimmed URL, and the resolution performs no network request. -/
theorem browser_automation_skips_probe (t : Transport) (s : String) (u : URLModel)
    (hfind : findLocatorTag (jsTrim s) = none)
    (hparse : parseURL (jsTrim s) = some u)
    (hamzf : hostMatchAmazon (jsToLower u.host) = false)
    (hshopf : hostMatchShopify (jsToLower u.host) = false)
    (hbrow : hostMatchBrowserAutomation (jsToLower u.host) = true) :
    resolveProductLocator t s = .ok ("url:" ++ jsTrim s)
    ∧ resolveRequests t s = [] := by
  constructor
  · rw [resolve_reduces t s u hfind hparse]
    simp [hamzf, hshopf, hbrow]
  · rw [requests_reduce t s u hfind hparse]
    simp [hamzf, hshopf, hbrow]

/-- Claim C8, witness: a Nike product URL resolves to its `url:` form with
an empty request trace. -/
theorem browser_automation_skips_probe_witness :
    resolveProductLocator tErr "https://www.nike.com/t/shoe" = .ok "url:https://www.nike.com/t/shoe"
    ∧ resolveRequests tErr "https://www.nike.com/t/shoe" = [] := by
  have h := browser_automation_skips_probe tErr "https://www.nike.com/t/shoe"
    ⟨"https", "", "", "www.nike.com", "", "/t/shoe", "", ""⟩
    (by decide) (by decide) (by decide) (by decide) (by decide)
  exact ⟨h.1.trans (by decide), h.2⟩

/-- Claim C9: a hostname matched by the Amazon substring rule resolves via
the Amazon rule even when it also matches a browser-automation brand
domain — the fast rules are evaluated Amazon first. -/
theorem amazon_rule_precedes_browser_automation (t : Transport) (s : String) (u : URLModel)
    (hfind : findLocatorTag (jsTrim s) = none)
    (hparse : parseURL (jsTrim s) = some u)
    (hamz : hostMatchAmazon (jsToLower u.host) = true)
    (hbrow : hostMatchBrowserAutomation (jsToLower u.host) = true) :
    resolveProductLocator t s = .ok ("amazon:" ++ jsTrim s) := by
  rw [resolve_reduces t s u hfind hparse]
  simp [hamz]

/-- Claim C9, witness: `amazon.nike.com` matches both the Amazon substring
rule and the Nike browser-automation domain, and resolves as Amazon. -/
theorem amazon_rule_precedes_browser_automation_witness :
    hostMatchAmazon "amazon.nike.com" = true
    ∧ hostMatchBrowserAutomation "amazon.nike.com" = true
    ∧ resolveProductLocator tErr "https://amazon.nike.com/p" = .ok "amazon:https://amazon.nike.com/p" := by
  refine ⟨by decide, by decide, ?_⟩
  exact (amazon_rule_precedes_browser_automation tErr "https://amazon.nike.com/p"
    ⟨"https", "", "", "amazon.nike.com", "", "/p", "", ""⟩
    (by decide) (by decide) (by decide) (by decide)).trans (by decide)

/-- Claim C3: for an un-tagged well-formed URL matched by no hostname fast
rule, if every probe fetch fails at the transport level or answers without
a Shopify indicator, the probe reports false and the resolver returns the
`url:` fallback instead of failing. -/
theorem probe_failure_degrades_to_url_locator (t : Transport) (s : String) (u : URLModel)
    (hfind : findLocatorTag (jsTrim s) = none)
    (hparse : parseURL (jsTrim s) = some u)
    (hamzf : hostMatchAmazon (jsToLower u.host) = false)
    (hshopf : hostMatchShopify (jsToLower u.host) = false)
    (hbrowf : hostMatchBrowserAutomation (jsToLower u.host) = false)
    (htrans : ∀ m, t m = .error () ∨ ∃ hs, t m = .ok hs ∧ inspectHeaders hs = false) :
    isShopifyStorefront t u = false
    ∧ resolveProductLocator t s = .ok ("url:" ++ jsTrim s) := by
  have hh : tryFetch t Method.head = false := by
    rcases htrans Method.head with h | ⟨hs, h1, h2⟩
    · simp [tryFetch, h]
    · simp [tryFetch, h1, h2]
  have hg : tryFetch t Method.get = false := by
    rcases htrans Method.get with h | ⟨hs, h1, h2⟩
    · simp [tryFetch, h]
    · simp [tryFetch, h1, h2]
  have hprobe : isShopifyStorefront t u = false := by
    simp [isShopifyStorefront, hshopf, hh, hg]
  refine ⟨hprobe, ?_⟩
  rw [resolve_reduces t s u hfind hparse]
  simp [hamzf, hshopf, hbrowf, hprobe]

/-- Claim C3, witness: with a transport that always fails, an unknown
domain resolves to its `url:` form. -/
theorem probe_failure_degrades_to_url_locator_witness :
    isShopifyStorefront tErr exampleItemUrl = false
    ∧ resolveProductLocator tErr "https://example.com/item" = .ok "url:https://example.com/item" := by
  have h := probe_failure_degrades_to_url_locator tErr "https://example.com/item" exampleItemUrl
    (by decide) (by decide) (by decide) (by decide) (by decide) (fun m => Or.inl rfl)
  exact ⟨h.1, h.2.trans (by decide)⟩

theorem resolve_eq_build_of_classifies (t : Transport) (s : String) (u : URLModel)
    (hfind : findLocatorTag (jsTrim s) = none)
    (hparse : parseURL (jsTrim s) = some u)
    (hclass : classifiesShopify t u = true) :
    resolveProductLocator t s = buildShopifyLocator u := by
  have hred := resolve_reduces t s u hfind hparse
  have hclass' := hclass
  simp only [classifiesShopify, Bool.and_eq_true, Bool.or_eq_true, Bool.not_eq_true'] at hclass'
  obtain ⟨hamzf, hrest⟩ := hclass'
  rcases hrest with hshop | ⟨hbrowf, hprobe⟩
  · rw [hred]
    simp [hamzf, hshop]
  · by_cases hshop2 : hostMatchShopify (jsToLower u.host) = true
    · rw [hred]
      simp [hamzf, hshop2]
    · rw [hred]
      simp [hamzf, bool_ne_true hshop2, hbrowf, hprobe]

/-- Claim C1, counterexample: a Shopify-classified URL whose query does
carry a `variant` parameter, with an empty value, makes the resolver throw
instead of returning a `shopify:` locator — the JavaScript falsiness guard
rejects the empty string. -/
theorem shopify_empty_variant_value_fails :
    resolveProductLocator tErr "https://shop.myshopify.com/products/widget?variant=&color=red"
      = .error ⟨"Shopify product URL must include variant parameter", 400⟩
    ∧ parseURL "https://shop.myshopify.com/products/widget?variant=&color=red"
        = some ⟨"https", "", "", "shop.myshopify.com", "", "/products/widget", "variant=&color=red", ""⟩
    ∧ hostMatchShopify "shop.myshopify.com" = true
    ∧ getParam "variant=&color=red" "variant" = some "" := by
  decide

/-- Claim C1 (amended): for every Shopify-classified URL whose query
carries a `variant` parameter with a non-empty value, the resolver returns
`shopify:<canonical-url>:<variant-value>`, where the canonical URL is
rebuilt from origin, pathname and the query with every `variant` pair
deleted; the remaining pairs are exactly the non-`variant` pairs in their
original relative order. -/
theorem shopify_locator_strips_variant (t : Transport) (s : String) (u : URLModel) (v : String)
    (hfind : findLocatorTag (jsTrim s) = none)
    (hparse : parseURL (jsTrim s) = some u)
    (hclass : classifiesShopify t u = true)
    (hv : getParam u.query "variant" = some v)
    (hvne : v ≠ "") :
    resolveProductLocator t s = .ok ("shopify:" ++ (shopifyCanonicalUrl u ++ ":" ++ v))
    ∧ List.Sublist (deleteParam u.query "variant") (parseQuery u.query)
    ∧ (∀ kv ∈ deleteParam u.query "variant", ¬(kv.1 = "variant"))
    ∧ (∀ kv ∈ parseQuery u.query, ¬(kv.1 = "variant") → kv ∈ deleteParam u.query "variant") := by
  have hvef := string_isEmpty_false_of_ne hvne
  have hbuild := buildShopifyLocator_ok u v hv hvef
  refine ⟨(resolve_eq_build_of_classifies t s u hfind hparse hclass).trans hbuild, ?_, ?_, ?_⟩
  · simp only [deleteParam]
    exact List.filter_sublist _
  · intro kv hkv
    simp only [deleteParam] at hkv
    have hp := (List.mem_filter.mp hkv).2
    intro heq
    rw [heq] at hp
    simp at hp
  · intro kv hkv hne
    simp only [deleteParam]
    exact List.mem_filter.mpr ⟨hkv, by simp [hne]⟩

/-- Claim C1, witness: the spec's Shopify example resolves to exactly the
3-part locator with `variant` stripped and `color=red` preserved. -/
theorem shopify_locator_strips_variant_witness :
    resolveProductLocator tErr "https://shop.myshopify.com/products/widget?variant=123&color=red"
      = .ok "shopify:https://shop.myshopify.com/products/widget?color=red:123" := by
  have h := shopify_locator_strips_variant tErr
    "https://shop.myshopify.com/products/widget?variant=123&color=red"
    ⟨"https", "", "", "shop.myshopify.com", "", "/products/widget", "variant=123&color=red", ""⟩
    "123" (by decide) (by decide) (by decide) (by decide) (by decide)
  exact h.1.trans (by decide)

/-- Claim C10: for a Shopify-classified URL with a usable variant, the
canonical URL inside the locator is rebuilt from only origin, pathname and
the variant-filtered query; the fragment and the userinfo of the parsed URL
never influence the locator. -/
theorem shopify_canonical_ignores_fragment_userinfo (t : Transport) (s : String)
    (u : URLModel) (v : String)
    (hfind : findLocatorTag (jsTrim s) = none)
    (hparse : parseURL (jsTrim s) = some u)
    (hclass : classifiesShopify t u = true)
    (hv : getParam u.query "variant" = some v)
    (hvne : v ≠ "") :
    resolveProductLocator t s =
      .ok ("shopify:" ++ ((u.origin ++ u.path ++
        (if (serializeQuery (deleteParam u.query "variant")).isEmpty then ""
         else "?" ++ serializeQuery (deleteParam u.query "variant"))) ++ ":" ++ v))
    ∧ (∀ fr un pw,
        buildShopifyLocator { u with fragment := fr, username := un, password := pw }
          = buildShopifyLocator u)
    ∧ (∀ fr un pw,
        shopifyCanonicalUrl { u with fragment := fr, username := un, password := pw }
          = shopifyCanonicalUrl u) := by
  have hvef := string_isEmpty_false_of_ne hvne
  have hbuild := buildShopifyLocator_ok u v hv hvef
  refine ⟨?_, fun fr un pw => rfl, fun fr un pw => rfl⟩
  have h := (resolve_eq_build_of_classifies t s u hfind hparse hclass).trans hbuild
  rw [h]
  simp only [shopifyCanonicalUrl]

/-- Claim C10, witness: a Shopify URL with userinfo and a fragment yields a
locator carrying neither. -/
theorem shopify_canonical_ignores_fragment_userinfo_witness :
    resolveProductLocator tErr "https://user:pw@shop.myshopify.com/p?variant=9#frag"
      = .ok "shopify:https://shop.myshopify.com/p:9" := by
  have h := shopify_canonical_ignores_fragment_userinfo tErr
    "https://user:pw@shop.myshopify.com/p?variant=9#frag"
    ⟨"https", "user", "pw", "shop.myshopify.com", "", "/p", "variant=9", "frag"⟩
    "9" (by decide) (by decide) (by decide) (by decide) (by decide)
  exact h.1.trans (by decide)

/-- Claim C2, counterexample: an input that is non-empty, un-tagged,
well-formed and does carry a `variant` query parameter still fails — the
empty variant value trips the falsiness guard, so "no variant parameter" is
not the exact failure condition. -/
theorem resolver_fails_with_variant_param_present :
    resolveProductLocator tErr "https://shop.myshopify.com/p?variant="
      = .error ⟨"Shopify product URL must include variant parameter", 400⟩
    ∧ jsTrim "https://shop.myshopify.com/p?variant=" = "https://shop.myshopify.com/p?variant="
    ∧ findLocatorTag "https://shop.myshopify.com/p?variant=" = none
    ∧ parseURL "https://shop.myshopify.com/p?variant="
        = some ⟨"https", "", "", "shop.myshopify.com", "", "/p", "variant=", ""⟩
    ∧ getParam "variant=" "variant" ≠ none := by
  decide

/-- Claim C2 (amended): resolution fails exactly when the trimmed input is
empty, or it is un-tagged and fails URL parsing, or the parsed URL is
classified as Shopify and its `variant` query parameter is absent or has an
empty value; every failure carries status 400 and the order-creation
handler surfaces that status with the error's message. -/
theorem resolver_failure_characterization (t : Transport) (s : String) :
    ((∃ e, resolveProductLocator t s = .error e) ↔
      ((jsTrim s).isEmpty = true
        ∨ (findLocatorTag (jsTrim s) = none ∧ parseURL (jsTrim s) = none)
        ∨ (∃ u, findLocatorTag (jsTrim s) = none ∧ parseURL (jsTrim s) = some u
            ∧ classifiesShopify t u = true
            ∧ (getParam u.query "variant" = none ∨ getParam u.query "variant" = some ""))))
    ∧ (∀ e, resolveProductLocator t s = .error e →
        e.status = 400 ∧ handleCrossmintOrderError e = ⟨400, e.message⟩) := by
  refine ⟨?_, fun e h => ⟨resolve_error_status t s e h,
    by simp [handleCrossmintOrderError, resolve_error_status t s e h]⟩⟩
  by_cases he : (jsTrim s).isEmpty = true
  · exact ⟨fun _ => Or.inl he,
      fun _ => ⟨⟨"Product URL is required", 400⟩, by simp [resolveProductLocator, he]⟩⟩
  · have hef : (jsTrim s).isEmpty = false := bool_ne_true he
    cases hfind : findLocatorTag (jsTrim s) with
    | some tag =>
      have hres : resolveProductLocator t s = .ok (jsTrim s) := by
        simp [resolveProductLocator, hef, hfind]
      constructor
      · rintro ⟨e, hE⟩
        rw [hres] at hE
        exact Except.noConfusion hE
      · rintro (h1 | ⟨h2, _⟩ | ⟨u', h3, _⟩)
        · rw [h1] at hef
          cases hef
        · cases h2
        · cases h3
    | none =>
      cases hparse : parseURL (jsTrim s) with
      | none =>
        constructor
        · intro _
          exact Or.inr (Or.inl ⟨rfl, rfl⟩)
        · intro _
          exact ⟨⟨"Product URL must be a valid URL", 400⟩,
            by simp [resolveProductLocator, hef, hfind, hparse]⟩
      | some u =>
        have hred := resolve_reduces t s u hfind hparse
        by_cases hamz : hostMatchAmazon (jsToLower u.host) = true
        · have hres : resolveProductLocator t s = .ok ("amazon:" ++ jsTrim s) := by
            rw [hred]
            simp [hamz]
          have hcf : classifiesShopify t u = false := by
            simp [classifiesShopify, hamz]
          constructor
          · rintro ⟨e, hE⟩
            rw [hres] at hE
            exact Except.noConfusion hE
          · rintro (h1 | ⟨_, hp2⟩ | ⟨u', _, hp', hc', _⟩)
            · rw [h1] at hef
              cases hef
            · cases hp2
            · rw [← Option.some.inj hp', hcf] at hc'
              cases hc'
        · have hamzf := bool_ne_true hamz
          by_cases hshop : hostMatchShopify (jsToLower u.host) = true
          · have hble : resolveProductLocator t s = buildShopifyLocator u := by
              rw [hred]
              simp [hamzf, hshop]
            have hct : classifiesShopify t u = true := by
              simp [classifiesShopify, hamzf, hshop]
            constructor
            · rintro ⟨e, hE⟩
              rw [hble] at hE
              exact Or.inr (Or.inr ⟨u, rfl, rfl, hct,
                (buildShopifyLocator_error_iff u).mp ⟨e, hE⟩⟩)
            · rintro (h1 | ⟨_, hp2⟩ | ⟨u', _, hp', _, hvf⟩)
              · rw [h1] at hef
                cases hef
              · cases hp2
              · rw [← Option.some.inj hp'] at hvf
                obtain ⟨e, hBE⟩ := (buildShopifyLocator_error_iff u).mpr hvf
                exact ⟨e, by rw [hble]; exact hBE⟩
          · have hshopf := bool_ne_true hshop
            by_cases hbrow : hostMatchBrowserAutomation (jsToLower u.host) = true
            · have hres : resolveProductLocator t s = .ok ("url:" ++ jsTrim s) := by
                rw [hred]
                simp [hamzf, hshopf, hbrow]
              have hcf : classifiesShopify t u = false := by
                simp [classifiesShopify, hamzf, hshopf, hbrow]
              constructor
              · rintro ⟨e, hE⟩
                rw [hres] at hE
                exact Except.noConfusion hE
              · rintro (h1 | ⟨_, hp2⟩ | ⟨u', _, hp', hc', _⟩)
                · rw [h1] at hef
                  cases hef
                · cases hp2
                · rw [← Option.some.inj hp', hcf] at hc'
                  cases hc'
            · have hbrowf := bool_ne_true hbrow
              by_cases hprobe : isShopifyStorefront t u = true
              · have hble : resolveProductLocator t s = buildShopifyLocator u := by
                  rw [hred]
                  simp [hamzf, hshopf, hbrowf, hprobe]
                have hct : classifiesShopify t u = true := by
                  simp [classifiesShopify, hamzf, hshopf, hbrowf, hprobe]
                constructor
                · rintro ⟨e, hE⟩
                  rw [hble] at hE
                  exact Or.inr (Or.inr ⟨u, rfl, rfl, hct,
                    (buildShopifyLocator_error_iff u).mp ⟨e, hE⟩⟩)
                · rintro (h1 | ⟨_, hp2⟩ | ⟨u', _, hp', _, hvf⟩)
                  · rw [h1] at hef
                    cases hef
                  · cases hp2
                  · rw [← Option.some.inj hp'] at hvf
                    obtain ⟨e, hBE⟩ := (buildShopifyLocator_error_iff u).mpr hvf
                    exact ⟨e, by rw [hble]; exact hBE⟩
              · have hprobef := bool_ne_true hprobe
                have hres : resolveProductLocator t s = .ok ("url:" ++ jsTrim s) := by
                  rw [hred]
                  simp [hamzf, hshopf, hbrowf, hprobef]
                have hcf : classifiesShopify t u = false := by
                  simp [classifiesShopify, hamzf, hshopf, hbrowf, hprobef]
                constructor
                · rintro ⟨e, hE⟩
                  rw [hres] at hE
                  exact Except.noConfusion hE
                · rintro (h1 | ⟨_, hp2⟩ | ⟨u', _, hp', hc', _⟩)
                  · rw [h1] at hef
                    cases hef
                  · cases hp2
                  · rw [← Option.some.inj hp', hcf] at hc'
                    cases hc'

/-- Claim C2, witness: the empty input fails with status 400 and the
handler surfaces the message. -/
theorem resolver_failure_characterization_witness :
    resolveProductLocator tErr "" = .error ⟨"Product URL is required", 400⟩
    ∧ handleCrossmintOrderError ⟨"Product URL is required", 400⟩
        = ⟨400, "Product URL is required"⟩ := by
  have h := (resolver_failure_characterization tErr "").2
    ⟨"Product URL is required", 400⟩ (by decide)
  exact ⟨by decide, h.2⟩

/-- Claim C5, counterexample: with `HEAD` inconclusive after 4000 ms and a
`GET` that would detect Shopify after another 2000 ms, a probe with
per-request independent 5-second timeouts (the claim's description) would
run 6000 ms and report detection, while the source's probe shares one
5000 ms timer across both calls, aborts the `GET`, and reports false —
each request is not independently bounded by its own 5-second timeout. -/
theorem probe_timeout_not_per_request :
    probeTimedIndependent exampleItemUrl slowGetSchedule
      ≠ probeTimedShared exampleItemUrl slowGetSchedule
    ∧ (probeTimedIndependent exampleItemUrl slowGetSchedule).1 = true
    ∧ (probeTimedShared exampleItemUrl slowGetSchedule).1 = false
    ∧ (probeTimedShared exampleItemUrl slowGetSchedule).2.1 = probeTimeoutMs
    ∧ probeTimeoutMs < (probeTimedIndependent exampleItemUrl slowGetSchedule).2.1 := by
  decide

/-- Claim C5 (amended): the probe's two calls are strictly sequential and
never retried — the attempted request list is always a prefix of
`[HEAD, GET]`, and equals `[HEAD]` only when `HEAD` already detected — and
both calls share a single 5000 ms timer, so the probe's total duration is
bounded by one 5-second timeout, not two. -/
theorem probe_shared_timeout_bound (u : URLModel) (sch : ProbeSchedule) :
    (probeTimedShared u sch).2.1 ≤ probeTimeoutMs
    ∧ ((probeTimedShared u sch).2.2 = []
        ∨ (probeTimedShared u sch).2.2 = [Method.head]
        ∨ (probeTimedShared u sch).2.2 = [Method.head, Method.get])
    ∧ ((probeTimedShared u sch).2.2 = [Method.head] → (probeTimedShared u sch).1 = true) := by
  unfold probeTimedShared
  split
  · exact ⟨Nat.zero_le _, Or.inl rfl, fun hx => by simp at hx⟩
  · split
    · exact ⟨Nat.le_refl _, Or.inr (Or.inr rfl), fun hx => by simp at hx⟩
    · split
      · exact ⟨by simp; omega, Or.inr (Or.inl rfl), fun _ => rfl⟩
      · split
        · exact ⟨Nat.le_refl _, Or.inr (Or.inr rfl), fun hx => by simp at hx⟩
        · exact ⟨by simp; omega, Or.inr (Or.inr rfl), fun hx => by simp at hx⟩

/-- Claim C5, witness: a probe whose `HEAD` detects Shopify at 100 ms stops
after the single `HEAD` request with a positive verdict. -/
theorem probe_shared_timeout_bound_witness :
    (probeTimedShared exampleItemUrl headDetectSchedule).1 = true :=
  (probe_shared_timeout_bound exampleItemUrl headDetectSchedule).2.2 (by decide)

end Purch
